import Mathlib

/-!
Shallow embedding of `src/ublox_gps/src/ublox_firmware6.cpp` (the u-blox
firmware-version-6 adapter of the ublox ROS driver), together with proofs
of the specification claims about it.

Modelling conventions:
- C++ `double` arithmetic is modelled over `ℚ` (the computations involved
  are exact decimal scalings and squarings).
- ROS message fields keep the source field names; unsigned integer fields
  become `Nat`, signed ones `Int`.
- `ros::Time::now()` is modelled by passing the current time to each
  callback as an explicit `Nat` parameter.
- Each message callback is a pure function from the adapter state, the
  incoming message and the current time to the new adapter state plus a
  record of everything published during the call.
-/

namespace UbloxFw6

/-! ### Message-level constants (from ublox_msgs / sensor_msgs / diagnostic_msgs) -/

/-- ublox_msgs::NavSOL::GPS_NO_FIX -/
def GPS_NO_FIX : Nat := 0

/-- ublox_msgs::NavSOL::GPS_DEAD_RECKONING_ONLY -/
def GPS_DEAD_RECKONING_ONLY : Nat := 1

/-- ublox_msgs::NavSOL::GPS_2D_FIX -/
def GPS_2D_FIX : Nat := 2

/-- ublox_msgs::NavSOL::GPS_3D_FIX -/
def GPS_3D_FIX : Nat := 3

/-- ublox_msgs::NavSOL::GPS_GPS_DEAD_RECKONING_COMBINED -/
def GPS_GPS_DEAD_RECKONING_COMBINED : Nat := 4

/-- ublox_msgs::NavSOL::GPS_TIME_ONLY_FIX -/
def GPS_TIME_ONLY_FIX : Nat := 5

/-- ublox_msgs::NavSOL::FLAGS_GPS_FIX_OK (bit 0 of the flags byte) -/
def FLAGS_GPS_FIX_OK : Nat := 1

/-- sensor_msgs::NavSatStatus::STATUS_NO_FIX -/
def STATUS_NO_FIX : Int := -1

/-- sensor_msgs::NavSatStatus::STATUS_FIX -/
def STATUS_FIX : Int := 0

/-- sensor_msgs::NavSatStatus::SERVICE_GPS -/
def SERVICE_GPS : Nat := 1

/-- sensor_msgs::NavSatFix::COVARIANCE_TYPE_DIAGONAL_KNOWN -/
def COVARIANCE_TYPE_DIAGONAL_KNOWN : Nat := 2

/-- diagnostic_msgs::DiagnosticStatus::OK -/
def LEVEL_OK : Nat := 0

/-- diagnostic_msgs::DiagnosticStatus::WARN -/
def LEVEL_WARN : Nat := 1

/-- diagnostic_msgs::DiagnosticStatus::ERROR -/
def LEVEL_ERROR : Nat := 2

/-- ublox_msgs::CfgNMEA6::FLAGS_COMPAT -/
def FLAGS_COMPAT : Nat := 1

/-- ublox_msgs::CfgNMEA6::FLAGS_CONSIDER -/
def FLAGS_CONSIDER : Nat := 2

/-- ublox_msgs::CfgNMEA6::FILTER_POS -/
def FILTER_POS : Nat := 1

/-- ublox_msgs::CfgNMEA6::FILTER_MSK_POS -/
def FILTER_MSK_POS : Nat := 2

/-- ublox_msgs::CfgNMEA6::FILTER_TIME -/
def FILTER_TIME : Nat := 4

/-- ublox_msgs::CfgNMEA6::FILTER_DATE -/
def FILTER_DATE : Nat := 8

/-- ublox_msgs::CfgNMEA6::FILTER_SBAS_FILT -/
def FILTER_SBAS_FILT : Nat := 16

/-- ublox_msgs::CfgNMEA6::FILTER_TRACK -/
def FILTER_TRACK : Nat := 32

/-! ### Raw message records (fields used by ublox_firmware6.cpp) -/

/-- ublox_msgs::NavPOSLLH: geodetic position solution.
Units: i_tow ms; lat/lon 1e-7 deg; height/h_msl mm; h_acc/v_acc mm. -/
structure NavPOSLLH where
  i_tow : Nat
  lat : Int
  lon : Int
  height : Int
  h_msl : Int
  h_acc : Nat
  v_acc : Nat
deriving DecidableEq

/-- ublox_msgs::NavVELNED: NED velocity solution.
Units: i_tow ms; vel_n/vel_e/vel_d cm/s; s_acc cm/s. -/
structure NavVELNED where
  i_tow : Nat
  vel_n : Int
  vel_e : Int
  vel_d : Int
  s_acc : Nat
deriving DecidableEq

/-- ublox_msgs::NavSOL: navigation solution quality (fields the adapter reads). -/
structure NavSOL where
  i_tow : Nat
  gps_fix : Nat
  flags : Nat
  num_sv : Nat
deriving DecidableEq

/-! ### Output message records -/

/-- sensor_msgs::NavSatStatus -/
structure NavSatStatus where
  status : Int
  service : Nat
deriving DecidableEq

/-- sensor_msgs::NavSatFix (header flattened to stamp and frame_id). -/
structure NavSatFix where
  stamp : Nat
  frame_id : String
  latitude : ℚ
  longitude : ℚ
  altitude : ℚ
  position_covariance : Fin 9 → ℚ
  position_covariance_type : Nat
  status : NavSatStatus

/-- geometry_msgs::TwistWithCovarianceStamped (header flattened; only the
linear part of the twist is ever written by this adapter). -/
structure TwistStamped where
  stamp : Nat
  frame_id : String
  linear_x : ℚ
  linear_y : ℚ
  linear_z : ℚ
  covariance : Fin 36 → ℚ

/-! ### Adapter state and emitted-output record -/

/-- The mutable members of UbloxFirmware6 touched by the callbacks. -/
structure State where
  fix : NavSatFix
  velocity : TwistStamped
  last_nav_pos : NavPOSLLH
  last_nav_vel : NavVELNED
  last_nav_sol : NavSOL

/-- The publish-gating booleans read via getRosBoolean in the callbacks
and in subscribe (absent keys default to false). -/
structure PubFlags where
  nav_posllh : Bool
  nav_velned : Bool
  nav_sol : Bool
  nav_svinfo : Bool
  mon_hw : Bool
deriving DecidableEq

/-- Everything a single callback invocation publishes. -/
structure Emitted where
  raw_pos : Option NavPOSLLH
  raw_vel : Option NavVELNED
  raw_sol : Option NavSOL
  fix : Option NavSatFix
  vel : Option TwistStamped

/-- Default-constructed NavSatFix (all-zero ROS message). -/
def initialFix : NavSatFix :=
  { stamp := 0
    frame_id := ""
    latitude := 0
    longitude := 0
    altitude := 0
    position_covariance := fun _ => 0
    position_covariance_type := 0
    status := { status := 0, service := 0 } }

/-- Default-constructed TwistWithCovarianceStamped (all-zero ROS message). -/
def initialVelocity : TwistStamped :=
  { stamp := 0
    frame_id := ""
    linear_x := 0
    linear_y := 0
    linear_z := 0
    covariance := fun _ => 0 }

/-- Adapter state right after construction: every ROS message member is
default (zero) initialised. -/
def initialState : State :=
  { fix := initialFix
    velocity := initialVelocity
    last_nav_pos := { i_tow := 0, lat := 0, lon := 0, height := 0, h_msl := 0, h_acc := 0, v_acc := 0 }
    last_nav_vel := { i_tow := 0, vel_n := 0, vel_e := 0, vel_d := 0, s_acc := 0 }
    last_nav_sol := { i_tow := 0, gps_fix := 0, flags := 0, num_sv := 0 } }

/-! ### The message callbacks (ublox_firmware6.cpp lines 162-238) -/

/-- UbloxFirmware6::callbackNavPosLlh. Publishes the raw NavPOSLLH when
enabled, correlates the timestamp against the latest NavVELNED, fills in
position, status and covariance of the fix message, publishes it and
stores the message as last_nav_pos_. -/
def callbackNavPosLlh (flags : PubFlags) (frame_id : String) (now : Nat)
    (s : State) (m : NavPOSLLH) : State × Emitted :=
  let stamp := if m.i_tow = s.last_nav_vel.i_tow then s.velocity.stamp else now
  let var_h : ℚ := ((m.h_acc : ℚ) / 1000) ^ 2
  let var_v : ℚ := ((m.v_acc : ℚ) / 1000) ^ 2
  let fix : NavSatFix :=
    { stamp := stamp
      frame_id := frame_id
      latitude := (m.lat : ℚ) * (1 / 10 ^ 7)
      longitude := (m.lon : ℚ) * (1 / 10 ^ 7)
      altitude := (m.height : ℚ) * (1 / 10 ^ 3)
      position_covariance :=
        Function.update (Function.update
          (Function.update s.fix.position_covariance 0 var_h) 4 var_h) 8 var_v
      position_covariance_type := COVARIANCE_TYPE_DIAGONAL_KNOWN
      status :=
        { status := if GPS_2D_FIX ≤ s.last_nav_sol.gps_fix then STATUS_FIX else STATUS_NO_FIX
          service := SERVICE_GPS } }
  ({ s with fix := fix, last_nav_pos := m },
   { raw_pos := if flags.nav_posllh then some m else none
     raw_vel := none
     raw_sol := none
     fix := some fix
     vel := none })

/-- UbloxFirmware6::callbackNavVelNed. Publishes the raw NavVELNED when
enabled, correlates the timestamp against the latest NavPOSLLH, converts
NED to an ENU-signed linear velocity, fills in the covariance and the
angular-rate sentinel, publishes the twist and stores the message as
last_nav_vel_. -/
def callbackNavVelNed (flags : PubFlags) (frame_id : String) (now : Nat)
    (s : State) (m : NavVELNED) : State × Emitted :=
  let stamp := if m.i_tow = s.last_nav_pos.i_tow then s.fix.stamp else now
  let var_speed : ℚ := ((m.s_acc : ℚ) / 100) ^ 2
  let vel : TwistStamped :=
    { stamp := stamp
      frame_id := frame_id
      linear_x := (m.vel_e : ℚ) / 100
      linear_y := (m.vel_n : ℚ) / 100
      linear_z := -(m.vel_d : ℚ) / 100
      covariance :=
        Function.update (Function.update (Function.update
          (Function.update s.velocity.covariance (6 * 0 + 0) var_speed)
            (6 * 1 + 1) var_speed) (6 * 2 + 2) var_speed) (6 * 3 + 3) (-1) }
  ({ s with velocity := vel, last_nav_vel := m },
   { raw_pos := none
     raw_vel := if flags.nav_velned then some m else none
     raw_sol := none
     fix := none
     vel := some vel })

/-- UbloxFirmware6::callbackNavSol. Publishes the raw NavSOL when enabled
and stores the message as last_nav_sol_. -/
def callbackNavSol (flags : PubFlags) (s : State) (m : NavSOL) : State × Emitted :=
  ({ s with last_nav_sol := m },
   { raw_pos := none
     raw_vel := none
     raw_sol := if flags.nav_sol then some m else none
     fix := none
     vel := none })

/-! ### Event traces over the three callbacks -/

/-- One delivered telemetry message together with the wall-clock time at
which its callback runs. -/
inductive Event where
  | pos : NavPOSLLH → Nat → Event
  | vel : NavVELNED → Nat → Event
  | sol : NavSOL → Event

/-- Whether an event is a position-sample delivery. -/
def Event.isPos : Event → Bool
  | .pos _ _ => true
  | _ => false

/-- Whether an event is a velocity-sample delivery. -/
def Event.isVel : Event → Bool
  | .vel _ _ => true
  | _ => false

/-- State transition of one delivered event. -/
def stepE (flags : PubFlags) (frame_id : String) (s : State) : Event → State
  | .pos m t => (callbackNavPosLlh flags frame_id t s m).1
  | .vel m t => (callbackNavVelNed flags frame_id t s m).1
  | .sol m => (callbackNavSol flags s m).1

/-- Run a list of delivered events from a state. -/
def runTrace (flags : PubFlags) (frame_id : String) (s : State) (L : List Event) : State :=
  L.foldl (stepE flags frame_id) s

/-! ### Diagnostics (UbloxFirmware6::fixDiagnostic, lines 120-160) -/

/-- diagnostic_updater::DiagnosticStatusWrapper: the level/message pair
the updater hands to the diagnostic task. -/
structure DiagStat where
  level : Nat
  message : String
deriving DecidableEq

/-- UbloxFirmware6::fixDiagnostic: sequentially overwrites level/message
from the latest NavSOL, then attaches the key/value fields from the latest
NavPOSLLH and NavSOL. Returns the final level/message and the field list. -/
def fixDiagnostic (s : State) (stat : DiagStat) : DiagStat × List (String × ℚ) :=
  let stat1 :=
    if s.last_nav_sol.gps_fix = GPS_DEAD_RECKONING_ONLY then
      { level := LEVEL_WARN, message := "Dead reckoning only" }
    else if s.last_nav_sol.gps_fix = GPS_2D_FIX then
      { level := LEVEL_OK, message := "2D fix" }
    else if s.last_nav_sol.gps_fix = GPS_3D_FIX then
      { level := LEVEL_OK, message := "3D fix" }
    else if s.last_nav_sol.gps_fix = GPS_GPS_DEAD_RECKONING_COMBINED then
      { level := LEVEL_OK, message := "GPS and dead reckoning combined" }
    else if s.last_nav_sol.gps_fix = GPS_TIME_ONLY_FIX then
      { level := LEVEL_OK, message := "Time fix only" }
    else stat
  let stat2 :=
    if s.last_nav_sol.flags &&& FLAGS_GPS_FIX_OK = 0 then
      { level := LEVEL_WARN, message := stat1.message ++ ", fix not ok" }
    else stat1
  let stat3 :=
    if s.last_nav_sol.gps_fix = GPS_NO_FIX then
      { level := LEVEL_ERROR, message := "No fix" }
    else stat2
  (stat3,
   [("iTOW [ms]", (s.last_nav_pos.i_tow : ℚ)),
    ("Latitude [deg]", (s.last_nav_pos.lat : ℚ) * (1 / 10 ^ 7)),
    ("Longitude [deg]", (s.last_nav_pos.lon : ℚ) * (1 / 10 ^ 7)),
    ("Altitude [m]", (s.last_nav_pos.height : ℚ) * (1 / 10 ^ 3)),
    ("Height above MSL [m]", (s.last_nav_pos.h_msl : ℚ) * (1 / 10 ^ 3)),
    ("Horizontal Accuracy [m]", (s.last_nav_pos.h_acc : ℚ) * (1 / 10 ^ 3)),
    ("Vertical Accuracy [m]", (s.last_nav_pos.v_acc : ℚ) * (1 / 10 ^ 3)),
    ("# SVs used", (s.last_nav_sol.num_sv : ℚ))])

/-! ### Spec-side statement of the diagnostic precedence rules (claim C3).
These three definitions follow the wording of spec section 4.5, to be
compared with `fixDiagnostic` above. -/

/-- Spec rule 1: base severity/message from fix-type; unrecognized
fix-types leave the incoming stat unchanged. -/
def specBaseRule (fix_type : Nat) (stat : DiagStat) : DiagStat :=
  if fix_type = GPS_DEAD_RECKONING_ONLY then
    { level := LEVEL_WARN, message := "Dead reckoning only" }
  else if fix_type = GPS_2D_FIX then
    { level := LEVEL_OK, message := "2D fix" }
  else if fix_type = GPS_3D_FIX then
    { level := LEVEL_OK, message := "3D fix" }
  else if fix_type = GPS_GPS_DEAD_RECKONING_COMBINED then
    { level := LEVEL_OK, message := "GPS and dead reckoning combined" }
  else if fix_type = GPS_TIME_ONLY_FIX then
    { level := LEVEL_OK, message := "Time fix only" }
  else stat

/-- Spec rule 2: if the fix-OK validity bit is unset, force warn and
append ", fix not ok" to the message (concatenation, not replacement). -/
def specFixOkRule (flags : Nat) (stat : DiagStat) : DiagStat :=
  if flags &&& FLAGS_GPS_FIX_OK = 0 then
    { level := LEVEL_WARN, message := stat.message ++ ", fix not ok" }
  else stat

/-- Spec rule 3: if the fix-type is no-fix, force error with the message
replaced by exactly "No fix". -/
def specNoFixRule (fix_type : Nat) (stat : DiagStat) : DiagStat :=
  if fix_type = GPS_NO_FIX then
    { level := LEVEL_ERROR, message := "No fix" }
  else stat

/-! ### Parameter resolution (UbloxFirmware6::getRosParams, lines 55-83) -/

/-- The flat ROS parameter key space read by getRosParams. Boolean keys
are modelled by the boolean getRosBoolean returns (false when absent);
the two unsigned keys keep their absent/present distinction. -/
structure ConfigSource where
  nmea_set : Bool
  nmea_version : Option Nat
  nmea_num_sv : Option Nat
  nmea_compat : Bool
  nmea_consider : Bool
  nmea_filter_pos : Bool
  nmea_filter_msk_pos : Bool
  nmea_filter_time : Bool
  nmea_filter_date : Bool
  nmea_filter_sbas : Bool
  nmea_filter_track : Bool
deriving DecidableEq

/-- ublox_msgs::CfgNMEA6 (fields written by getRosParams). -/
structure CfgNMEA where
  version : Nat
  num_sv : Nat
  flags : Nat
  filter : Nat
deriving DecidableEq

/-- The settings getRosParams leaves in the adapter on success. -/
structure AdapterCfg where
  fix_status_service : Nat
  nmea_set : Bool
  cfg_nmea : CfgNMEA
deriving DecidableEq

/-- UbloxFirmware6::getRosParams. Throwing std::runtime_error is modelled
by Except.error carrying the exception message. -/
def getRosParams (c : ConfigSource) : Except String AdapterCfg :=
  if c.nmea_set then
    match c.nmea_version with
    | none =>
      .error ("Invalid settings: nmea/set is " ++ "true, therefore nmea/version must be set")
    | some version =>
      match c.nmea_num_sv with
      | none =>
        .error ("Invalid settings: nmea/set is " ++ "true, therefore nmea/num_sv must be set")
      | some num_sv =>
        .ok
          { fix_status_service := SERVICE_GPS
            nmea_set := true
            cfg_nmea :=
              { version := version
                num_sv := num_sv
                flags :=
                  (if c.nmea_compat then FLAGS_COMPAT else 0) |||
                    (if c.nmea_consider then FLAGS_CONSIDER else 0)
                filter :=
                  (if c.nmea_filter_pos then FILTER_POS else 0) |||
                  (if c.nmea_filter_msk_pos then FILTER_MSK_POS else 0) |||
                  (if c.nmea_filter_time then FILTER_TIME else 0) |||
                  (if c.nmea_filter_date then FILTER_DATE else 0) |||
                  (if c.nmea_filter_sbas then FILTER_SBAS_FILT else 0) |||
                  (if c.nmea_filter_track then FILTER_TRACK else 0) } }
  else
    .ok
      { fix_status_service := SERVICE_GPS
        nmea_set := false
        cfg_nmea := { version := 0, num_sv := 0, flags := 0, filter := 0 } }

/-! ### Device configuration (UbloxFirmware6::configureUblox, lines 85-93) -/

/-- A configuration request sent to the device through the transport
layer. This firmware adapter can only ever send a CfgNMEA request;
a GNSS-selection request is listed so its absence can be stated. -/
inductive DeviceRequest where
  | cfgNMEA : CfgNMEA → DeviceRequest
  | cfgGNSS : DeviceRequest
deriving DecidableEq

/-- Result of UbloxFirmware6::configureUblox: the warning messages logged,
the device requests attempted, and either the thrown exception message or
the returned boolean. `accepts` models the device's answer to
gps->configure(cfg_nmea_). -/
def configureUblox (nmea_set : Bool) (cfg_nmea : CfgNMEA) (accepts : Bool) :
    List String × List DeviceRequest × Except String Bool :=
  let warnings := ["ublox_version < 7, ignoring GNSS settings"]
  if nmea_set then
    if accepts then
      (warnings, [.cfgNMEA cfg_nmea], .ok true)
    else
      (warnings, [.cfgNMEA cfg_nmea], .error "Failed to configure NMEA")
  else
    (warnings, [], .ok true)

/-! ### Subscription wiring (UbloxFirmware6::subscribe, lines 95-118) -/

/-- The telemetry message kinds this firmware generation can subscribe to. -/
inductive MsgKind where
  | navPosLlh
  | navSol
  | navVelNed
  | navSvInfo
  | monHw
deriving DecidableEq

/-- UbloxFirmware6::subscribe: the list of message kinds for which a
handler is registered, in registration order. -/
def subscribe (flags : PubFlags) : List MsgKind :=
  [MsgKind.navPosLlh, MsgKind.navSol, MsgKind.navVelNed] ++
    (if flags.nav_svinfo then [MsgKind.navSvInfo] else []) ++
    (if flags.mon_hw then [MsgKind.monHw] else [])

/-! ### Concrete inputs used by witnesses and counterexamples -/

/-- All publish flags enabled. -/
def allFlags : PubFlags :=
  { nav_posllh := true, nav_velned := true, nav_sol := true, nav_svinfo := true, mon_hw := true }

/-- Off-diagonal entries of a row-major 3×3 covariance are all zero. -/
def offDiagZero (c : Fin 9 → ℚ) : Prop :=
  ∀ i : Fin 9, i ≠ 0 → i ≠ 4 → i ≠ 8 → c i = 0

/-- A position sample at epoch 7. -/
def cexP : NavPOSLLH :=
  { i_tow := 7, lat := 0, lon := 0, height := 0, h_msl := 0, h_acc := 0, v_acc := 0 }

/-- A later position sample at a different epoch, 8. -/
def cexP2 : NavPOSLLH :=
  { i_tow := 8, lat := 0, lon := 0, height := 0, h_msl := 0, h_acc := 0, v_acc := 0 }

/-- A velocity sample at epoch 7, pairing with cexP. -/
def cexV : NavVELNED :=
  { i_tow := 7, vel_n := 0, vel_e := 0, vel_d := 0, s_acc := 0 }

/-- A quality sample used as an intervening non-position event. -/
def cexSol : NavSOL :=
  { i_tow := 7, gps_fix := 3, flags := 1, num_sv := 4 }

/-- A configuration source requesting NMEA emission with both required
unsigned keys absent. -/
def cexC7 : ConfigSource :=
  { nmea_set := true, nmea_version := none, nmea_num_sv := none
    nmea_compat := false, nmea_consider := false
    nmea_filter_pos := false, nmea_filter_msk_pos := false
    nmea_filter_time := false, nmea_filter_date := false
    nmea_filter_sbas := false, nmea_filter_track := false }

/-- A position sample with horizontal accuracy 500 mm and height 12345 mm. -/
def cexC4 : NavPOSLLH :=
  { i_tow := 1, lat := 0, lon := 0, height := 12345, h_msl := 0, h_acc := 500, v_acc := 2000 }

/-! ## Helper lemmas -/

/-- Updating only the diagonal entries 0, 4, 8 preserves zero
off-diagonals. -/
theorem offDiagZero_update (c : Fin 9 → ℚ) (vh vv : ℚ) (h : offDiagZero c) :
    offDiagZero (Function.update (Function.update (Function.update c 0 vh) 4 vh) 8 vv) := by
  intro i h0 h4 h8
  simp [Function.update_apply, h0, h4, h8]
  exact h i h0 h4 h8

/-- Every event step leaves the fix covariance off-diagonals zero if they
were zero before. -/
theorem stepE_offDiag (flags : PubFlags) (fid : String) (s : State) (e : Event)
    (h : offDiagZero s.fix.position_covariance) :
    offDiagZero (stepE flags fid s e).fix.position_covariance := by
  cases e with
  | pos m t => exact offDiagZero_update _ _ _ h
  | vel m t => exact h
  | sol m => exact h

/-- Along any trace, the fix covariance off-diagonals stay zero. -/
theorem runTrace_offDiag (flags : PubFlags) (fid : String) (L : List Event) (s : State)
    (h : offDiagZero s.fix.position_covariance) :
    offDiagZero (runTrace flags fid s L).fix.position_covariance := by
  induction L generalizing s with
  | nil => exact h
  | cons e L ih => exact ih _ (stepE_offDiag flags fid s e h)

/-- A trace without position events changes neither the synthesized fix
nor the stored latest position sample. -/
theorem runTrace_noPos (flags : PubFlags) (fid : String) (L : List Event)
    (hL : ∀ e ∈ L, e.isPos = false) (s : State) :
    (runTrace flags fid s L).fix = s.fix ∧
      (runTrace flags fid s L).last_nav_pos = s.last_nav_pos := by
  induction L generalizing s with
  | nil => exact ⟨rfl, rfl⟩
  | cons e L ih =>
    have he : e.isPos = false := hL e (List.mem_cons_self e L)
    have hL2 : ∀ e2 ∈ L, e2.isPos = false := fun e2 h2 => hL e2 (List.mem_cons_of_mem e h2)
    cases e with
    | pos m t => simp [Event.isPos] at he
    | vel m t => exact ih hL2 _
    | sol m => exact ih hL2 _

/-- A trace without velocity events changes neither the synthesized twist
nor the stored latest velocity sample. -/
theorem runTrace_noVel (flags : PubFlags) (fid : String) (L : List Event)
    (hL : ∀ e ∈ L, e.isVel = false) (s : State) :
    (runTrace flags fid s L).velocity = s.velocity ∧
      (runTrace flags fid s L).last_nav_vel = s.last_nav_vel := by
  induction L generalizing s with
  | nil => exact ⟨rfl, rfl⟩
  | cons e L ih =>
    have he : e.isVel = false := hL e (List.mem_cons_self e L)
    have hL2 : ∀ e2 ∈ L, e2.isVel = false := fun e2 h2 => hL e2 (List.mem_cons_of_mem e h2)
    cases e with
    | pos m t => exact ih hL2 _
    | vel m t => simp [Event.isVel] at he
    | sol m => exact ih hL2 _

/-! ## Claims -/

/-- C1: For every RawPositionSample processed, the derived fix navigation
status equals STATUS_FIX iff the stored latest NavSOL's gps_fix is at least
GPS_2D_FIX (so 2D, 3D, GPS+dead-reckoning combined and time-only all yield
fix), it is never any third value, and it does not depend on any field of
the position sample itself. -/
theorem C1_fix_status_iff_quality (flags : PubFlags) (fid : String) (now : Nat)
    (s : State) (m : NavPOSLLH) :
    ((callbackNavPosLlh flags fid now s m).1.fix.status.status = STATUS_FIX ↔
        GPS_2D_FIX ≤ s.last_nav_sol.gps_fix) ∧
    ((callbackNavPosLlh flags fid now s m).1.fix.status.status = STATUS_FIX ∨
        (callbackNavPosLlh flags fid now s m).1.fix.status.status = STATUS_NO_FIX) ∧
    (∀ m2 : NavPOSLLH,
        (callbackNavPosLlh flags fid now s m).1.fix.status.status =
          (callbackNavPosLlh flags fid now s m2).1.fix.status.status) := by
  refine ⟨?_, ?_, fun m2 => rfl⟩ <;>
    · simp only [callbackNavPosLlh]
      split <;> simp_all [STATUS_FIX, STATUS_NO_FIX]

/-- C3: fixDiagnostic applies exactly the three spec rules in order, later
rules overriding earlier ones: base severity/message from the fix-type,
then the fix-OK validity bit forcing warn with ", fix not ok" appended,
then no-fix forcing error with message replaced by "No fix". -/
theorem C3_diagnostic_precedence (s : State) (stat : DiagStat) :
    (fixDiagnostic s stat).1 =
      specNoFixRule s.last_nav_sol.gps_fix
        (specFixOkRule s.last_nav_sol.flags
          (specBaseRule s.last_nav_sol.gps_fix stat)) := rfl

/-- C5: For every RawVelocitySample processed, the derived linear velocity
is (east, north, negated down), each divided by 100 (cm/s to m/s), and this
twist is what gets emitted. -/
theorem C5_velocity_linear (flags : PubFlags) (fid : String) (now : Nat)
    (s : State) (m : NavVELNED) :
    (callbackNavVelNed flags fid now s m).1.velocity.linear_x = (m.vel_e : ℚ) / 100 ∧
    (callbackNavVelNed flags fid now s m).1.velocity.linear_y = (m.vel_n : ℚ) / 100 ∧
    (callbackNavVelNed flags fid now s m).1.velocity.linear_z = -(m.vel_d : ℚ) / 100 ∧
    (callbackNavVelNed flags fid now s m).2.vel =
      some (callbackNavVelNed flags fid now s m).1.velocity :=
  ⟨rfl, rfl, rfl, rfl⟩

/-- C6: For every RawVelocitySample processed, the three linear diagonal
entries of the 6×6 twist covariance each equal (s_acc/100)^2, the
angular-rate marker entry (3,3) equals the fixed sentinel -1, and that
sentinel never depends on the sample (in particular not on s_acc). -/
theorem C6_velocity_covariance (flags : PubFlags) (fid : String) (now : Nat)
    (s : State) (m : NavVELNED) :
    (callbackNavVelNed flags fid now s m).1.velocity.covariance 0 = ((m.s_acc : ℚ) / 100) ^ 2 ∧
    (callbackNavVelNed flags fid now s m).1.velocity.covariance 7 = ((m.s_acc : ℚ) / 100) ^ 2 ∧
    (callbackNavVelNed flags fid now s m).1.velocity.covariance 14 = ((m.s_acc : ℚ) / 100) ^ 2 ∧
    (callbackNavVelNed flags fid now s m).1.velocity.covariance 21 = -1 ∧
    (∀ m2 : NavVELNED,
        (callbackNavVelNed flags fid now s m2).1.velocity.covariance 21 = -1) := by
  refine ⟨?_, ?_, ?_, ?_, fun m2 => ?_⟩ <;>
    simp [callbackNavVelNed, Function.update_apply]

/-- C9: subscribe always registers the position, solution-quality and
velocity handlers, independent of all publish flags, and registers the
satellite-info and hardware-monitor handlers iff their flags are set. -/
theorem C9_subscribe_wiring (flags : PubFlags) :
    MsgKind.navPosLlh ∈ subscribe flags ∧
    MsgKind.navSol ∈ subscribe flags ∧
    MsgKind.navVelNed ∈ subscribe flags ∧
    (MsgKind.navSvInfo ∈ subscribe flags ↔ flags.nav_svinfo = true) ∧
    (MsgKind.monHw ∈ subscribe flags ↔ flags.mon_hw = true) := by
  obtain ⟨a, b, c, d, e⟩ := flags
  cases d <;> cases e <;> simp [subscribe]

/-- C10: the NavSOL handler only replaces the stored latest NavSOL (and
optionally republishes the raw message): the stored latest position and
velocity samples, the synthesized fix and twist (hence their timestamps)
are unchanged, and it emits no fix, no twist and no other raw message. -/
theorem C10_navsol_frame (flags : PubFlags) (s : State) (m : NavSOL) :
    (callbackNavSol flags s m).1.fix = s.fix ∧
    (callbackNavSol flags s m).1.velocity = s.velocity ∧
    (callbackNavSol flags s m).1.last_nav_pos = s.last_nav_pos ∧
    (callbackNavSol flags s m).1.last_nav_vel = s.last_nav_vel ∧
    (callbackNavSol flags s m).1.last_nav_sol = m ∧
    (callbackNavSol flags s m).2.fix = none ∧
    (callbackNavSol flags s m).2.vel = none ∧
    (callbackNavSol flags s m).2.raw_pos = none ∧
    (callbackNavSol flags s m).2.raw_vel = none ∧
    (callbackNavSol flags s m).2.raw_sol = (if flags.nav_sol then some m else none) :=
  ⟨rfl, rfl, rfl, rfl, rfl, rfl, rfl, rfl, rfl, rfl⟩

/-- C2 (counterexample to the claim as stated): the position sample cexP
and the velocity sample cexV share epoch token 7, yet when a second
position sample at epoch 8 is processed between them the fix derived from
cexP carries timestamp 100 while the twist derived from cexV carries the
fresh timestamp 300. -/
theorem C2_claim_counterexample :
    cexP.i_tow = cexV.i_tow ∧
    Option.map NavSatFix.stamp
        (callbackNavPosLlh allFlags "gps" 100 initialState cexP).2.fix = some 100 ∧
    Option.map TwistStamped.stamp
        (callbackNavVelNed allFlags "gps" 300
          (callbackNavPosLlh allFlags "gps" 200
            (callbackNavPosLlh allFlags "gps" 100 initialState cexP).1 cexP2).1 cexV).2.vel =
      some 300 ∧
    (100 : Nat) ≠ 300 :=
  ⟨rfl, rfl, rfl, by decide⟩

/-- C2 (amended): each arrival reuses the counterpart output's timestamp
exactly when its epoch equals the stored latest counterpart sample's
epoch, and otherwise takes the fresh current time; consequently a
position/velocity pair sharing an epoch token gets equal derived
timestamps whenever no other sample of the first-processed kind intervenes
before the second is processed (in either order). -/
theorem C2_timestamp_correlation (flags : PubFlags) (fid : String) (s : State) :
    (∀ (m : NavPOSLLH) (now : Nat), m.i_tow = s.last_nav_vel.i_tow →
        (callbackNavPosLlh flags fid now s m).1.fix.stamp = s.velocity.stamp) ∧
    (∀ (m : NavPOSLLH) (now : Nat), m.i_tow ≠ s.last_nav_vel.i_tow →
        (callbackNavPosLlh flags fid now s m).1.fix.stamp = now) ∧
    (∀ (m : NavVELNED) (now : Nat), m.i_tow = s.last_nav_pos.i_tow →
        (callbackNavVelNed flags fid now s m).1.velocity.stamp = s.fix.stamp) ∧
    (∀ (m : NavVELNED) (now : Nat), m.i_tow ≠ s.last_nav_pos.i_tow →
        (callbackNavVelNed flags fid now s m).1.velocity.stamp = now) ∧
    (∀ (P : NavPOSLLH) (V : NavVELNED) (t1 t2 : Nat) (L : List Event),
        P.i_tow = V.i_tow → (∀ e ∈ L, e.isPos = false) →
        (callbackNavVelNed flags fid t2
            (runTrace flags fid (callbackNavPosLlh flags fid t1 s P).1 L) V).1.velocity.stamp =
          (callbackNavPosLlh flags fid t1 s P).1.fix.stamp) ∧
    (∀ (V : NavVELNED) (P : NavPOSLLH) (t1 t2 : Nat) (L : List Event),
        P.i_tow = V.i_tow → (∀ e ∈ L, e.isVel = false) →
        (callbackNavPosLlh flags fid t2
            (runTrace flags fid (callbackNavVelNed flags fid t1 s V).1 L) P).1.fix.stamp =
          (callbackNavVelNed flags fid t1 s V).1.velocity.stamp) := by
  refine ⟨?_, ?_, ?_, ?_, ?_, ?_⟩
  · intro m now h
    simp [callbackNavPosLlh, h]
  · intro m now h
    simp [callbackNavPosLlh, h]
  · intro m now h
    simp [callbackNavVelNed, h]
  · intro m now h
    simp [callbackNavVelNed, h]
  · intro P V t1 t2 L hPV hL
    obtain ⟨hfix, hpos⟩ := runTrace_noPos flags fid L hL (callbackNavPosLlh flags fid t1 s P).1
    have hlast : (runTrace flags fid (callbackNavPosLlh flags fid t1 s P).1 L).last_nav_pos.i_tow
        = P.i_tow := by rw [hpos]; rfl
    simp [callbackNavVelNed, hlast, hPV, hfix]

  · intro V P t1 t2 L hPV hL
    obtain ⟨hvel, hlastv⟩ := runTrace_noVel flags fid L hL (callbackNavVelNed flags fid t1 s V).1
    have hlast : (runTrace flags fid (callbackNavVelNed flags fid t1 s V).1 L).last_nav_vel.i_tow
        = V.i_tow := by rw [hlastv]; rfl
    simp [callbackNavPosLlh, hlast, hPV, hvel]

/-- C2 witness: the amended theorem applied to the concrete pair cexP /
cexV around one intervening quality event. -/
theorem C2_timestamp_correlation_witness :
    (cexP.i_tow = cexV.i_tow ∧ ∀ e ∈ [Event.sol cexSol], e.isPos = false) ∧
    (callbackNavVelNed allFlags "gps" 300
        (runTrace allFlags "gps"
          (callbackNavPosLlh allFlags "gps" 100 initialState cexP).1
          [Event.sol cexSol]) cexV).1.velocity.stamp =
      (callbackNavPosLlh allFlags "gps" 100 initialState cexP).1.fix.stamp :=
  ⟨⟨rfl, by decide⟩,
    (C2_timestamp_correlation allFlags "gps" initialState).2.2.2.2.1
      cexP cexV 100 300 [Event.sol cexSol] rfl (by decide)⟩

/-- C4: processing a position sample on a state with zero off-diagonal fix
covariance yields covariance diagonal ((h_acc/1000))^2, ((h_acc/1000))^2,
((v_acc/1000))^2 (hence non-negative) with all off-diagonals zero and the
diagonal-known type tag; the zero-off-diagonal invariant holds along every
trace from the initial state; and concretely h_acc = 500 gives entries 0
and 4 equal to 0.25 while height = 12345 gives altitude 12.345. -/
theorem C4_position_covariance (flags : PubFlags) (fid : String) (now : Nat) :
    (∀ (s : State) (m : NavPOSLLH), offDiagZero s.fix.position_covariance →
      (callbackNavPosLlh flags fid now s m).1.fix.position_covariance 0 =
          ((m.h_acc : ℚ) / 1000) ^ 2 ∧
      (callbackNavPosLlh flags fid now s m).1.fix.position_covariance 4 =
          ((m.h_acc : ℚ) / 1000) ^ 2 ∧
      (callbackNavPosLlh flags fid now s m).1.fix.position_covariance 8 =
          ((m.v_acc : ℚ) / 1000) ^ 2 ∧
      (0 : ℚ) ≤ (callbackNavPosLlh flags fid now s m).1.fix.position_covariance 0 ∧
      (0 : ℚ) ≤ (callbackNavPosLlh flags fid now s m).1.fix.position_covariance 4 ∧
      (0 : ℚ) ≤ (callbackNavPosLlh flags fid now s m).1.fix.position_covariance 8 ∧
      offDiagZero (callbackNavPosLlh flags fid now s m).1.fix.position_covariance ∧
      (callbackNavPosLlh flags fid now s m).1.fix.position_covariance_type =
        COVARIANCE_TYPE_DIAGONAL_KNOWN) ∧
    (∀ L : List Event,
      offDiagZero (runTrace flags fid initialState L).fix.position_covariance) ∧
    ((callbackNavPosLlh flags fid now initialState cexC4).1.fix.position_covariance 0 = 0.25 ∧
     (callbackNavPosLlh flags fid now initialState cexC4).1.fix.position_covariance 4 = 0.25 ∧
     (callbackNavPosLlh flags fid now initialState cexC4).1.fix.altitude = 12.345) := by
  refine ⟨?_, ?_, ?_, ?_, ?_⟩
  · intro s m h
    refine ⟨?_, ?_, ?_, ?_, ?_, ?_, offDiagZero_update _ _ _ h, rfl⟩ <;>
      simp [callbackNavPosLlh, Function.update_apply] <;> positivity
  · intro L
    exact runTrace_offDiag flags fid L initialState (fun _ _ _ _ => rfl)
  · simp [callbackNavPosLlh, Function.update_apply, cexC4]
    norm_num
  · simp [callbackNavPosLlh, Function.update_apply, cexC4]
    norm_num
  · norm_num [callbackNavPosLlh, cexC4]

/-- C4 witness: the general part applied at the initial state and the
concrete accuracy-500 sample. -/
theorem C4_position_covariance_witness :
    offDiagZero initialState.fix.position_covariance ∧
    (callbackNavPosLlh allFlags "gps" 5 initialState cexC4).1.fix.position_covariance 0 =
      ((cexC4.h_acc : ℚ) / 1000) ^ 2 :=
  ⟨fun _ _ _ _ => rfl,
    ((C4_position_covariance allFlags "gps" 5).1 initialState cexC4 (fun _ _ _ _ => rfl)).1⟩

/-- C7: when NMEA emission is requested, a missing protocol-version key or
a missing minimum-satellite-count key makes parameter resolution fail with
an error naming the missing key, and resolution never succeeds while
either required key is absent. -/
theorem C7_nmea_required_keys (c : ConfigSource) (h : c.nmea_set = true) :
    (c.nmea_version = none →
        getRosParams c =
          .error ("Invalid settings: nmea/set is true, therefore " ++ "nmea/version" ++
            " must be set")) ∧
    (∀ v : Nat, c.nmea_version = some v → c.nmea_num_sv = none →
        getRosParams c =
          .error ("Invalid settings: nmea/set is true, therefore " ++ "nmea/num_sv" ++
            " must be set")) ∧
    (∀ cfg : AdapterCfg, getRosParams c = .ok cfg →
        c.nmea_version ≠ none ∧ c.nmea_num_sv ≠ none) := by
  refine ⟨?_, ?_, ?_⟩
  · intro hv
    simp [getRosParams, h, hv]
  · intro v hv hs
    simp [getRosParams, h, hv, hs]
  · intro cfg hok
    cases hv : c.nmea_version with
    | none => simp [getRosParams, h, hv] at hok
    | some v =>
      cases hs : c.nmea_num_sv with
      | none => simp [getRosParams, h, hv, hs] at hok
      | some s => simp

/-- C7 witness: resolution of a source requesting NMEA with the version
key absent fails with the error naming nmea/version. -/
theorem C7_nmea_required_keys_witness :
    cexC7.nmea_set = true ∧
    getRosParams cexC7 =
      .error ("Invalid settings: nmea/set is true, therefore " ++ "nmea/version" ++
        " must be set") :=
  ⟨rfl, (C7_nmea_required_keys cexC7 rfl).1 rfl⟩

/-- C8: configureUblox never sends a GNSS-selection request, always logs
the warning that GNSS settings are ignored, returns success unless NMEA
emission was requested and the device rejected it (in which case it throws
"Failed to configure NMEA"), and without an NMEA request it contacts the
device not at all and succeeds. -/
theorem C8_configure_warn_then_succeed (nmea_set : Bool) (cfg : CfgNMEA) (accepts : Bool) :
    DeviceRequest.cfgGNSS ∉ (configureUblox nmea_set cfg accepts).2.1 ∧
    "ublox_version < 7, ignoring GNSS settings" ∈ (configureUblox nmea_set cfg accepts).1 ∧
    ((configureUblox nmea_set cfg accepts).2.2 = .ok true ↔
        ¬(nmea_set = true ∧ accepts = false)) ∧
    (nmea_set = true → accepts = false →
        (configureUblox nmea_set cfg accepts).2.2 = .error "Failed to configure NMEA") ∧
    (nmea_set = false →
        (configureUblox nmea_set cfg accepts).2.2 = .ok true ∧
          (configureUblox nmea_set cfg accepts).2.1 = []) := by
  cases nmea_set <;> cases accepts <;> simp [configureUblox]

/-- C8 witness: a requested NMEA configuration the device rejects throws,
while an unsupported-GNSS-only configuration succeeds with the warning. -/
theorem C8_configure_warn_then_succeed_witness :
    (configureUblox true { version := 35, num_sv := 4, flags := 0, filter := 0 } false).2.2 =
        .error "Failed to configure NMEA" ∧
    (configureUblox false { version := 35, num_sv := 4, flags := 0, filter := 0 } true).2.2 =
        .ok true :=
  ⟨(C8_configure_warn_then_succeed true { version := 35, num_sv := 4, flags := 0, filter := 0 }
        false).2.2.2.1 rfl rfl,
    ((C8_configure_warn_then_succeed false { version := 35, num_sv := 4, flags := 0, filter := 0 }
        true).2.2.2.2 rfl).1⟩

end UbloxFw6
